import Mathlib

/-!
Verification of the Blackhole simulation API (`simulation_api.py`).

The repository is a single Flask service: a module-level grid and base
radial field are precomputed once, and a per-request pipeline computes a
clipped curvature field `Z = max(-mass / R_base, -15)`, renders it with
matplotlib, encodes the PNG bytes as base64 with a data-URI prefix, and
wraps the result in a JSON envelope.

Numeric values (Python floats) are modelled as exact reals; parsed query
parameters, which are always finite decimal/exponent literals, as exact
rationals.  The matplotlib renderer is external to the repository and is
modelled as an explicit parameter: a deterministic function producing the
PNG byte sequence (possibly failing, mirroring an exception raised by
`fig.savefig`).  The figure registry that `plt.figure` / `plt.close`
manipulate is modelled as a count of open figures threaded through the
pipeline.
-/

namespace Blackhole

/-! ## Constants (lines 12-17 of `simulation_api.py`) -/

abbrev GRID_SIZE : ℕ := 100

def GRID_MAX : ℝ := 20

def INITIAL_MASS : ℚ := 10

def CLIP_VALUE : ℝ := -15

def SPHERE_X : ℝ := 12

def SPHERE_Y : ℝ := 5

/-! ## Grid Builder (lines 20-23): `np.linspace`, `np.meshgrid`, `R_base` -/

/-- Element `i` of `np.linspace(-GRID_MAX, GRID_MAX, GRID_SIZE)`:
`-20 + 40 * i / 99`. -/
noncomputable def linsp (i : Fin GRID_SIZE) : ℝ :=
  -GRID_MAX + (GRID_MAX - -GRID_MAX) * i / (GRID_SIZE - 1)

/-- `X, Y = np.meshgrid(x, y)` (default `xy` indexing): `X[i][j] = x[j]`. -/
noncomputable def X (_i j : Fin GRID_SIZE) : ℝ := linsp j

/-- `Y[i][j] = y[i]`. -/
noncomputable def Y (i _j : Fin GRID_SIZE) : ℝ := linsp i

/-- `R_base = np.sqrt(X**2 + Y**2) + 1e-6`, the Base Radial Field. -/
noncomputable def R_base (i j : Fin GRID_SIZE) : ℝ :=
  Real.sqrt (X i j ^ 2 + Y i j ^ 2) + 1 / 1000000

/-! ## Field Evaluator (lines 30-31, 42-44) -/

/-- `Z = -mass_value / R_base`. -/
noncomputable def Z (mass : ℝ) (i j : Fin GRID_SIZE) : ℝ :=
  -mass / R_base i j

/-- `Z_clipped = np.maximum(Z, CLIP_VALUE)`, the Curvature Field. -/
noncomputable def Z_clipped (mass : ℝ) (i j : Fin GRID_SIZE) : ℝ :=
  max (Z mass i j) CLIP_VALUE

/-- `r_sphere = np.sqrt(SPHERE_X**2 + SPHERE_Y**2) + 1e-6` (line 42). -/
noncomputable def r_sphere : ℝ :=
  Real.sqrt (SPHERE_X ^ 2 + SPHERE_Y ^ 2) + 1 / 1000000

/-- `z_sphere = -mass_value / r_sphere` (line 43). -/
noncomputable def z_sphere (mass : ℝ) : ℝ := -mass / r_sphere

/-- `z_sphere_clipped = np.maximum(z_sphere, CLIP_VALUE)` (line 44). -/
noncomputable def z_sphere_clipped (mass : ℝ) : ℝ :=
  max (z_sphere mass) CLIP_VALUE

/-! ## Query-parameter parsing

`request.args.get('mass', default=INITIAL_MASS, type=float)` (line 82).
Werkzeug applies `float` to the raw string and, when the conversion raises
`ValueError`/`TypeError` or the key is absent, returns the default.  The
grammar of finite `float` literals is `[sign] (digits [. digits] | . digits
| digits .) [(e|E) [sign] digits]`; every accepted literal denotes an exact
rational, modelled here as `ℚ`. -/

/-- Value of a decimal digit character, `none` on a non-digit. -/
def digVal (c : Char) : Option ℕ :=
  if ('0') ≤ c ∧ c ≤ ('9') then some (c.toNat - ('0').toNat) else none

/-- Value of a non-empty all-digit string, `none` otherwise. -/
def digitsVal (cs : List Char) : Option ℕ :=
  if cs.isEmpty then none
  else cs.foldl (fun acc c => acc.bind (fun a => (digVal c).map (fun d => a * 10 + d))) (some 0)

/-- Mantissa of a float literal (digits with an optional decimal point),
as a pair `(n, k)` denoting the rational `n / 10 ^ k`.  Integer arithmetic
only, so concrete instances reduce by `decide`. -/
def parseMantissaParts (cs : List Char) : Option (ℕ × ℕ) :=
  match cs.splitOn ('.') with
  | [ip] => (digitsVal ip).map (fun n => (n, 0))
  | [ip, fp] =>
    if ip.isEmpty && fp.isEmpty then none
    else
      match (if ip.isEmpty then some 0 else digitsVal ip),
            (if fp.isEmpty then some 0 else digitsVal fp) with
      | some i, some f => some (i * 10 ^ fp.length + f, fp.length)
      | _, _ => none
  | _ => none

/-- Exponent part of a float literal: optional sign, then digits. -/
def parseExp (cs : List Char) : Option ℤ :=
  match cs with
  | c :: rest =>
    if c = ('-') then (digitsVal rest).map (fun n => -(n : ℤ))
    else if c = ('+') then (digitsVal rest).map (fun n => (n : ℤ))
    else (digitsVal cs).map (fun n => (n : ℤ))
  | [] => none

/-- Python `float(s)` on finite decimal literals, reduced to a pair
`(n, k)` denoting `n / 10 ^ k`; `none` models a `ValueError`. -/
def parseFloatParts (s : String) : Option (ℤ × ℕ) :=
  let cs := (s.toList).map (fun c => if c = ('E') then ('e') else c)
  let sgncs : ℤ × List Char :=
    match cs with
    | c :: rest =>
      if c = ('-') then (-1, rest) else if c = ('+') then (1, rest) else (1, cs)
    | [] => (1, [])
  match sgncs.2.splitOn ('e') with
  | [m] => (parseMantissaParts m).map (fun p => (sgncs.1 * p.1, p.2))
  | [m, ex] =>
    match parseMantissaParts m, parseExp ex with
    | some p, some e =>
      if 0 ≤ e then some (sgncs.1 * p.1 * 10 ^ e.toNat, p.2)
      else some (sgncs.1 * p.1, p.2 + e.natAbs)
    | _, _ => none
  | _ => none

/-- The rational denoted by a `(numerator, power-of-ten)` pair. -/
def partsVal (p : ℤ × ℕ) : ℚ := (p.1 : ℚ) / (10 : ℚ) ^ p.2

/-- Python `float(s)` on finite decimal literals, as an exact rational;
`none` models a `ValueError` (e.g. on `"abc"`). -/
def parseFloat (s : String) : Option ℚ :=
  (parseFloatParts s).map partsVal

/-- The mass the endpoint hands to the pipeline for a given raw `mass`
query argument (`none` = parameter absent), per line 82. -/
def massOfArg (arg : Option String) : ℚ :=
  match arg with
  | none => INITIAL_MASS
  | some s => (parseFloat s).getD INITIAL_MASS

/-! ## Encoder: `io.BytesIO`, `base64.b64encode`, data-URI prefix -/

/-- In-memory byte buffer modelling `io.BytesIO` (bytes, file position). -/
structure ByteBuf where
  data : List ℕ
  pos : ℕ
deriving DecidableEq

/-- `io.BytesIO()`: empty buffer at position 0. -/
def ByteBuf.empty : ByteBuf := ⟨[], 0⟩

/-- Writing bytes at the current position (overwriting, then extending). -/
def ByteBuf.write (b : ByteBuf) (bs : List ℕ) : ByteBuf :=
  ⟨b.data.take b.pos ++ bs, b.pos + bs.length⟩

/-- `buf.seek(n)`. -/
def ByteBuf.seek (b : ByteBuf) (n : ℕ) : ByteBuf := ⟨b.data, n⟩

/-- `buf.read()`: all bytes from the current position to the end. -/
def ByteBuf.read (b : ByteBuf) : List ℕ := b.data.drop b.pos

/-- The base64 alphabet, per RFC 4648 (what `base64.b64encode` uses). -/
def b64Char (n : ℕ) : Char :=
  (("ABCDEFGHIJKLMNOPQRSTUVWXYZabcdefghijklmnopqrstuvwxyz0123456789+/").toList).getD n ('A')

/-- Standard base64 encoding of a byte list with `=` padding. -/
def base64Encode : List ℕ → List Char
  | [] => []
  | [a] => [b64Char (a / 4), b64Char (a % 4 * 16), ('='), ('=')]
  | [a, b] => [b64Char (a / 4), b64Char (a % 4 * 16 + b / 16), b64Char (b % 16 * 4), ('=')]
  | a :: b :: c :: rest =>
    [b64Char (a / 4), b64Char (a % 4 * 16 + b / 16), b64Char (b % 16 * 4 + c / 64),
      b64Char (c % 64)] ++ base64Encode rest

/-- `base64.b64encode(...).decode('utf-8')` as a string. -/
def base64EncodeStr (bs : List ℕ) : String := String.mk (base64Encode bs)

/-! ## The per-request pipeline `generate_plot_image` (lines 26-68)

The renderer (matplotlib) is not part of the repository; it enters as a
parameter `render` giving the PNG bytes `fig.savefig` writes for a given
mass, or an error when saving raises.  The pyplot figure registry is the
`figs` count: `plt.figure` (line 34) registers a figure, `plt.close(fig)`
(line 65) removes it.  There is no `try`/`finally` in the source, so an
exception from `fig.savefig` (line 58) propagates before line 65 runs. -/

/-- One call of `generate_plot_image`: returns the data-URI string (or the
propagated exception) together with the figure count after the call. -/
def generate_plot_image_run (render : ℚ → Except String (List ℕ)) (mass : ℚ)
    (figs : ℕ) : Except String String × ℕ :=
  let figs1 := figs + 1
  match render mass with
  | Except.error e => (Except.error e, figs1)
  | Except.ok png =>
    let buf := ByteBuf.empty
    let buf := buf.write png
    let buf := buf.seek 0
    let image_base64 := base64EncodeStr buf.read
    (Except.ok (("data:image/png;base64,") ++ image_base64), figs1 - 1)

/-! ## HTTP handler `simulation_endpoint` (lines 77-99) -/

/-- JSON envelope plus HTTP status code returned by the endpoint. -/
structure HttpResponse where
  code : ℕ
  status : String
  mass_used : Option ℚ
  image_data : Option String
  msg : Option String
deriving DecidableEq

/-- `simulation_endpoint`: parse the `mass` query argument (defaulting to
`INITIAL_MASS` on absence or conversion failure), run the pipeline, and
wrap the result; any exception becomes a 500 error envelope. -/
def simulation_endpoint (render : ℚ → Except String (List ℕ))
    (arg : Option String) : HttpResponse :=
  let mass := massOfArg arg
  match (generate_plot_image_run render mass 0).1 with
  | Except.ok img => ⟨200, ("success"), some mass, some img, none⟩
  | Except.error e => ⟨500, ("error"), none, none, some e⟩

/-! ## Module-level shared state (lines 20-23) for the frame claim -/

/-- The process-wide arrays `X`, `Y`, `R_base`. -/
structure Globals where
  Xg : Fin GRID_SIZE → Fin GRID_SIZE → ℝ
  Yg : Fin GRID_SIZE → Fin GRID_SIZE → ℝ
  Rg : Fin GRID_SIZE → Fin GRID_SIZE → ℝ

/-- The values computed once at module load (lines 20-23). -/
noncomputable def initGlobals : Globals := ⟨X, Y, R_base⟩

/-- `generate_plot_image` with the module-level state threaded explicitly:
the body reads `R_base` (line 30) and passes `X`, `Y` and the curvature
field to the renderer (line 38), which may fail — an exception raised
while rendering or saving (as in `fig.savefig`, line 58) propagates out of
the function.  The body contains no assignment to any of the module-level
arrays, so on both the normal and the exception exit path the state comes
back unchanged alongside the result. -/
noncomputable def generate_plot_image_g
    (render : Globals → (Fin GRID_SIZE → Fin GRID_SIZE → ℝ) → ℚ → Except String (List ℕ))
    (g : Globals) (mass : ℚ) : Except String String × Globals :=
  match render g (fun i j => max (-(mass : ℝ) / g.Rg i j) CLIP_VALUE) mass with
  | Except.error e => (Except.error e, g)
  | Except.ok png =>
    (Except.ok (("data:image/png;base64,") ++ base64EncodeStr png), g)

/-! ## Helper lemmas -/

/-- Every entry of the Base Radial Field is strictly positive: it is a
square root (nonnegative) plus the epsilon `1e-6`. -/
theorem R_base_pos (i j : Fin GRID_SIZE) : 0 < R_base i j := by
  have h1 : 0 ≤ Real.sqrt (X i j ^ 2 + Y i j ^ 2) := Real.sqrt_nonneg _
  unfold R_base
  linarith

/-! ## Claims -/

/-- C1: for every mass, the Curvature Field is the 100x100 array whose
entry at `(i, j)` is `max (-mass / R_base i j) (-15)`, with `R_base` the
precomputed Base Radial Field. -/
theorem C1_curvature_field_formula (mass : ℝ) (i j : Fin GRID_SIZE) :
    Z_clipped mass i j = max (-mass / R_base i j) (-15) := rfl

/-- C5: for every mass `≥ 0`, every entry of the Curvature Field lies in
`[-15, 0]`. -/
theorem C5_clipping_invariant (mass : ℝ) (hm : 0 ≤ mass) (i j : Fin GRID_SIZE) :
    Z_clipped mass i j ≤ 0 ∧ -15 ≤ Z_clipped mass i j := by
  have hR := R_base_pos i j
  have hz : Z mass i j ≤ 0 := by
    unfold Z
    apply div_nonpos_iff.mpr
    right
    exact ⟨by linarith, hR.le⟩
  constructor
  · apply max_le hz
    norm_num [CLIP_VALUE]
  · exact le_max_right _ _

/-- C5 witness at `mass = 10`, entry `(0, 0)`. -/
theorem C5_witness :
    (0 : ℝ) ≤ 10 ∧ (Z_clipped 10 0 0 ≤ 0 ∧ -15 ≤ Z_clipped 10 0 0) :=
  ⟨by norm_num, C5_clipping_invariant 10 (by norm_num) 0 0⟩

/-- C10: for every mass `< 0`, every entry of the Curvature Field equals
`-mass / R_base i j` (the `-15` floor never engages) and is strictly
positive, and the field is unbounded above over negative masses. -/
theorem C10_negative_mass (mass : ℝ) (hm : mass < 0) (i j : Fin GRID_SIZE) :
    (Z_clipped mass i j = -mass / R_base i j ∧ 0 < Z_clipped mass i j) ∧
      ∀ B : ℝ, ∃ m : ℝ, m < 0 ∧ B < Z_clipped m i j := by
  have hR := R_base_pos i j
  have hpos : 0 < -mass / R_base i j := div_pos (by linarith) hR
  refine ⟨⟨?_, ?_⟩, ?_⟩
  · unfold Z_clipped Z CLIP_VALUE
    exact max_eq_left (by linarith)
  · exact lt_max_of_lt_left hpos
  · intro B
    refine ⟨-((max B 0 + 1) * R_base i j), ?_, ?_⟩
    · have hM : 0 < max B 0 + 1 := by positivity
      have := mul_pos hM hR
      linarith
    · have hz : Z (-((max B 0 + 1) * R_base i j)) i j = max B 0 + 1 := by
        unfold Z
        rw [neg_neg, mul_div_assoc, div_self hR.ne', mul_one]
      have hB : B < max B 0 + 1 := lt_of_le_of_lt (le_max_left B 0) (by linarith)
      have hle : max B 0 + 1 ≤ Z_clipped (-((max B 0 + 1) * R_base i j)) i j := by
        unfold Z_clipped
        rw [hz]
        exact le_max_left _ _
      linarith

/-- C10 witness at `mass = -1`, entry `(0, 0)`. -/
theorem C10_witness :
    (-1 : ℝ) < 0 ∧
      ((Z_clipped (-1) 0 0 = -(-1) / R_base 0 0 ∧ 0 < Z_clipped (-1) 0 0) ∧
        ∀ B : ℝ, ∃ m : ℝ, m < 0 ∧ B < Z_clipped m 0 0) :=
  ⟨by norm_num, C10_negative_mass (-1) (by norm_num) 0 0⟩

/-- C3 fails as stated: the code divides by `sqrt(12^2 + 5^2) + 1e-6`
(line 42 adds the epsilon), not by `sqrt(12^2 + 5^2)`; at `mass = 13` the
two values differ. -/
theorem C3_counterexample :
    z_sphere_clipped 13 ≠ max (-13 / Real.sqrt (12 ^ 2 + 5 ^ 2)) (-15) := by
  have hs : Real.sqrt (12 ^ 2 + 5 ^ 2 : ℝ) = 13 := by
    rw [show ((12 : ℝ) ^ 2 + 5 ^ 2) = 13 ^ 2 by norm_num]
    exact Real.sqrt_sq (by norm_num)
  unfold z_sphere_clipped z_sphere r_sphere SPHERE_X SPHERE_Y CLIP_VALUE
  rw [hs]
  rw [max_eq_left (by norm_num), max_eq_left (by norm_num)]
  norm_num

/-- C3 amended: the test-particle z-value equals
`max (-mass / (sqrt(12^2 + 5^2) + 1e-6)) (-15)` exactly, for any mass. -/
theorem C3_amended (mass : ℝ) :
    z_sphere_clipped mass =
      max (-mass / (Real.sqrt (12 ^ 2 + 5 ^ 2) + 1 / 1000000)) (-15) := rfl

/-- C2 fails as stated: werkzeug's `args.get(..., type=float)` swallows the
conversion failure and returns the default, so `?mass=abc` produces a 200
success envelope, not an error. -/
theorem C2_counterexample :
    (simulation_endpoint (fun _ : ℚ => (Except.ok [137] : Except String (List ℕ)))
        (some ("abc"))).code = 200 ∧
      (simulation_endpoint (fun _ : ℚ => (Except.ok [137] : Except String (List ℕ)))
          (some ("abc"))).status = ("success") :=
  ⟨rfl, rfl⟩

/-- C2 amended: a non-numeric `mass` argument is silently replaced by the
default `INITIAL_MASS = 10.0`; the request behaves exactly like one with
no `mass` parameter and (when the renderer succeeds) returns a 200 success
response, never an error. -/
theorem C2_amended (s : String) (hs : parseFloat s = none)
    (render : ℚ → Except String (List ℕ)) :
    simulation_endpoint render (some s) = simulation_endpoint render none ∧
      massOfArg (some s) = INITIAL_MASS ∧
      (∀ png, render INITIAL_MASS = Except.ok png →
        (simulation_endpoint render (some s)).code = 200 ∧
        (simulation_endpoint render (some s)).status = ("success")) := by
  have hm : massOfArg (some s) = INITIAL_MASS := by
    simp [massOfArg, hs]
  refine ⟨?_, hm, ?_⟩
  · unfold simulation_endpoint
    rw [hm]
    rfl
  · intro png hpng
    unfold simulation_endpoint
    rw [hm]
    simp [generate_plot_image_run, hpng]

/-- C2 witness: the amended claim at `s = "abc"` with a renderer producing
one byte. -/
theorem C2_witness :
    parseFloat ("abc") = none ∧
      ((fun _ : ℚ => (Except.ok [137] : Except String (List ℕ))) INITIAL_MASS =
        Except.ok [137]) ∧
      (simulation_endpoint (fun _ : ℚ => (Except.ok [137] : Except String (List ℕ)))
          (some ("abc"))).code = 200 := by
  have habc : parseFloat ("abc") = none := by
    simp [parseFloat, show parseFloatParts ("abc") = none by decide]
  exact ⟨habc, rfl,
    ((C2_amended ("abc") habc (fun _ : ℚ => (Except.ok [137] : Except String (List ℕ)))).2.2
      [137] rfl).1⟩

/-- C4 fails as stated: there is no `try`/`finally` around the render, so
when `fig.savefig` raises, `plt.close(fig)` on line 65 never runs and the
figure created on line 34 stays registered after the call. -/
theorem C4_counterexample :
    (generate_plot_image_run (fun _ : ℚ => (Except.error ("boom") : Except String (List ℕ)))
        10 0).2 ≠ 0 := by
  decide

/-- C4 amended: on the normal exit path the figure is closed (the figure
count returns to its pre-call value), but on the exception path raised by
`fig.savefig` one figure remains registered after the call. -/
theorem C4_amended (render : ℚ → Except String (List ℕ)) (mass : ℚ) (figs : ℕ) :
    (∀ png, render mass = Except.ok png →
      (generate_plot_image_run render mass figs).2 = figs) ∧
      (∀ e, render mass = Except.error e →
        (generate_plot_image_run render mass figs).2 = figs + 1) := by
  constructor
  · intro png h
    simp [generate_plot_image_run, h]
  · intro e h
    simp [generate_plot_image_run, h]

/-- C4 witness: the normal path at a renderer producing one byte. -/
theorem C4_witness :
    ((fun _ : ℚ => (Except.ok [137] : Except String (List ℕ))) 10 = Except.ok [137]) ∧
      (generate_plot_image_run (fun _ : ℚ => (Except.ok [137] : Except String (List ℕ)))
          10 0).2 = 0 :=
  ⟨rfl,
    (C4_amended (fun _ : ℚ => (Except.ok [137] : Except String (List ℕ))) 10 0).1 [137] rfl⟩

/-- C6: whenever the renderer yields PNG bytes `png`, the pipeline returns
exactly the literal prefix `data:image/png;base64,` concatenated with the
base64 encoding of `png` — the bytes pass through the in-memory buffer
unchanged. -/
theorem C6_encoder_exact (render : ℚ → Except String (List ℕ)) (mass : ℚ)
    (figs : ℕ) (png : List ℕ) (h : render mass = Except.ok png) :
    (generate_plot_image_run render mass figs).1 =
      Except.ok (("data:image/png;base64,") ++ base64EncodeStr png) := by
  simp [generate_plot_image_run, h, ByteBuf.empty, ByteBuf.write, ByteBuf.seek, ByteBuf.read]

/-- C6 witness at the three-byte input `[77, 97, 110]`. -/
theorem C6_witness :
    ((fun _ : ℚ => (Except.ok [77, 97, 110] : Except String (List ℕ))) 10 =
      Except.ok [77, 97, 110]) ∧
      (generate_plot_image_run (fun _ : ℚ => (Except.ok [77, 97, 110] : Except String (List ℕ)))
          10 0).1 =
        Except.ok (("data:image/png;base64,") ++ base64EncodeStr [77, 97, 110]) :=
  ⟨rfl,
    C6_encoder_exact (fun _ : ℚ => (Except.ok [77, 97, 110] : Except String (List ℕ)))
      10 0 [77, 97, 110] rfl⟩

/-- C7: a request without a `mass` parameter hands the default mass 10 to
the pipeline, returns the very response of `mass=10.0`, and on renderer
success reports `mass_used = 10` with status 200. -/
theorem C7_default_mass (render : ℚ → Except String (List ℕ)) :
    massOfArg none = 10 ∧
      simulation_endpoint render none = simulation_endpoint render (some ("10.0")) ∧
      (∀ png, render 10 = Except.ok png →
        (simulation_endpoint render none).code = 200 ∧
        (simulation_endpoint render none).mass_used = some 10) := by
  have h1 : massOfArg none = 10 := rfl
  have h2 : massOfArg (some ("10.0")) = 10 := by
    have hp : parseFloatParts ("10.0") = some (100, 1) := by decide
    norm_num [massOfArg, parseFloat, hp, partsVal]
  refine ⟨h1, ?_, ?_⟩
  · unfold simulation_endpoint
    rw [h1, h2]
  · intro png hpng
    unfold simulation_endpoint
    rw [h1]
    simp [generate_plot_image_run, hpng]

/-- C7 witness with a renderer producing one byte. -/
theorem C7_witness :
    ((fun _ : ℚ => (Except.ok [137] : Except String (List ℕ))) 10 = Except.ok [137]) ∧
      (simulation_endpoint (fun _ : ℚ => (Except.ok [137] : Except String (List ℕ)))
          none).code = 200 :=
  ⟨rfl,
    ((C7_default_mass (fun _ : ℚ => (Except.ok [137] : Except String (List ℕ)))).2.2
      [137] rfl).1⟩

/-- C8: the pipeline's output is a function of the mass and the renderer
alone — two successive calls with the same mass, whatever figure state each
starts from, produce the identical `image_data` result. -/
theorem C8_byte_identical (render : ℚ → Except String (List ℕ)) (mass : ℚ)
    (figs1 figs2 : ℕ) :
    (generate_plot_image_run render mass figs1).1 =
      (generate_plot_image_run render mass figs2).1 := by
  cases h : render mass <;> simp [generate_plot_image_run, h]

/-- C9: the pipeline leaves the module-level `X`, `Y`, `R_base` untouched
on every invocation, whether the renderer succeeds or raises: after any
call the global state equals what it was before, and a call started from
the initial module-load state leaves exactly that state. -/
theorem C9_globals_immutable
    (render : Globals → (Fin GRID_SIZE → Fin GRID_SIZE → ℝ) → ℚ → Except String (List ℕ))
    (g : Globals) (mass : ℚ) :
    (generate_plot_image_g render g mass).2 = g ∧
      (generate_plot_image_g render initGlobals mass).2 = initGlobals := by
  have h : ∀ g' : Globals, (generate_plot_image_g render g' mass).2 = g' := by
    intro g'
    unfold generate_plot_image_g
    cases render g' (fun i j => max (-(mass : ℝ) / g'.Rg i j) CLIP_VALUE) mass <;> rfl
  exact ⟨h g, h initGlobals⟩

end Blackhole
